import Mathlib

/-!
Shallow embedding of src/dropout_predictor.py (microinsurance dropout
predictor).  The scoring core `calculate_dropout_risk` is a pure
additive rule over nine inputs; the UI layer contributes the classifier
thresholds, the risk-factor explainer, the recommendation selector and
the beneficiary-id guard.  Integer form inputs are modelled as ℕ (the
widgets enforce nonnegative integer ranges) and the score as ℚ, with
the decimal literals of the source taken exactly.
-/

namespace DropoutPredictor

/-- Regions offered by the region selectbox (line 54 of the source). -/
inductive Region
  | Lagos
  | Enugu
  | Kaduna
  | Kano
  | Abuja
  | Jos
  | Ibadan
  | PortHarcourt
deriving DecidableEq, Repr

/-- Gender options offered by the gender selectbox (line 53). -/
inductive Gender
  | Male
  | Female
deriving DecidableEq, Repr

/-- Months-since-claim block of calculate_dropout_risk (lines 82-87). -/
def monthsContribution (months_since_claim : ℕ) : ℚ :=
  if months_since_claim ≥ 12 then 0.45
  else if months_since_claim ≥ 6 then 0.30
  else if months_since_claim ≥ 3 then 0.15
  else 0

/-- Total-claims block (lines 90-95). -/
def claimsContribution (total_claims : ℕ) : ℚ :=
  if total_claims = 0 then 0.15
  else if total_claims > 10 then 0.20
  else if total_claims > 5 then 0.10
  else 0

/-- Age block (lines 98-103). -/
def ageContribution (age : ℕ) : ℚ :=
  if age < 25 then 0.12
  else if age > 65 then 0.15
  else if age > 55 then 0.08
  else 0

/-- Regional risk lookup (lines 106-110).  The selectbox only offers
these eight regions, so the dictionary lookup always hits and the 0.10
default of regional_risk.get is never used. -/
def regional_risk (region : Region) : ℚ :=
  match region with
  | .Lagos => 0.18
  | .Enugu => 0.16
  | .Kaduna => 0.14
  | .Kano => 0.12
  | .Abuja => 0.10
  | .Jos => 0.08
  | .Ibadan => 0.06
  | .PortHarcourt => 0.04

/-- Claim-denial-rate block (lines 113-116). -/
def denialContribution (claim_denial_rate : ℕ) : ℚ :=
  if claim_denial_rate > 25 then 0.12
  else if claim_denial_rate > 15 then 0.08
  else 0

/-- Clinic-visits block (lines 118-121). -/
def visitsContribution (clinic_visits : ℕ) : ℚ :=
  if clinic_visits < 2 then 0.10
  else if clinic_visits > 15 then 0.05
  else 0

/-- Distance-to-clinic block (lines 123-124). -/
def distanceContribution (distance_to_clinic : ℕ) : ℚ :=
  if distance_to_clinic > 50 then 0.08 else 0

/-- Balance block (lines 126-129), with the branches in source order:
the avg_monthly_balance < 2000 test comes first and the < 1000 test is
an elif, so the second branch can never fire. -/
def balanceContribution (avg_monthly_balance : ℕ) : ℚ :=
  if avg_monthly_balance < 2000 then 0.10
  else if avg_monthly_balance < 1000 then 0.15
  else 0

/-- Premium-to-balance block (lines 131-132). -/
def premiumContribution (avg_monthly_balance premium_amount : ℕ) : ℚ :=
  if (premium_amount : ℚ) > (avg_monthly_balance : ℚ) * 0.3 then 0.08 else 0

/-- Accumulated risk_score of calculate_dropout_risk before the cap
(lines 79-132): each block adds its contribution to a running total. -/
def risk_score (months_since_claim total_claims age : ℕ) (region : Region)
    (claim_denial_rate clinic_visits distance_to_clinic
      avg_monthly_balance premium_amount : ℕ) : ℚ :=
  monthsContribution months_since_claim
    + claimsContribution total_claims
    + ageContribution age
    + regional_risk region
    + denialContribution claim_denial_rate
    + visitsContribution clinic_visits
    + distanceContribution distance_to_clinic
    + balanceContribution avg_monthly_balance
    + premiumContribution avg_monthly_balance premium_amount

/-- calculate_dropout_risk (lines 74-136): the accumulated score capped
at 0.95. -/
def calculate_dropout_risk (months_since_claim total_claims age : ℕ)
    (region : Region)
    (claim_denial_rate clinic_visits distance_to_clinic
      avg_monthly_balance premium_amount : ℕ) : ℚ :=
  min (risk_score months_since_claim total_claims age region
        claim_denial_rate clinic_visits distance_to_clinic
        avg_monthly_balance premium_amount) 0.95

/-- Outcome labels rendered in the result box (lines 155 and 160). -/
inductive Outcome
  | WILL_DROPOUT
  | WILL_NOT_DROPOUT
deriving DecidableEq, Repr

/-- Risk tiers rendered in the result box (lines 156 and 161). -/
inductive RiskLevel
  | HIGH_RISK
  | MEDIUM_RISK
  | LOW_RISK
deriving DecidableEq, Repr

/-- Outcome computed from dropout_percentage (lines 154-160). -/
def outcome (dropout_percentage : ℚ) : Outcome :=
  if dropout_percentage ≥ 50 then .WILL_DROPOUT else .WILL_NOT_DROPOUT

/-- Risk level computed from dropout_percentage (lines 154-161):
inside the ≥ 50 branch it is HIGH RISK when ≥ 70, MEDIUM otherwise, and
the else branch gives LOW RISK. -/
def risk_level (dropout_percentage : ℚ) : RiskLevel :=
  if dropout_percentage ≥ 50 then
    (if dropout_percentage ≥ 70 then .HIGH_RISK else .MEDIUM_RISK)
  else .LOW_RISK

/-- Risk-factor strings appended by the explainer (lines 205-220),
abstracted to their identity. -/
inductive Factor
  | monthsWithoutClaims
  | noClaimsHistory
  | highClaimFrequency
  | ageRisk
  | highRiskRegion
  | highDenialRate
  | lowBalance
deriving DecidableEq, Repr

/-- risk_factors list built by the explainer (lines 205-220), with each
append guarded exactly as in the source and in source order. -/
def risk_factors (months_since_claim total_claims age : ℕ) (region : Region)
    (claim_denial_rate avg_monthly_balance : ℕ) : List Factor :=
  (if months_since_claim ≥ 6 then [Factor.monthsWithoutClaims] else [])
    ++ (if total_claims = 0 then [Factor.noClaimsHistory]
        else if total_claims > 5 then [Factor.highClaimFrequency] else [])
    ++ (if age < 25 ∨ age > 55 then [Factor.ageRisk] else [])
    ++ (if region = Region.Lagos ∨ region = Region.Enugu ∨ region = Region.Kaduna
        then [Factor.highRiskRegion] else [])
    ++ (if claim_denial_rate > 15 then [Factor.highDenialRate] else [])
    ++ (if avg_monthly_balance < 2000 then [Factor.lowBalance] else [])

/-- What the risk-factor panel shows (lines 222-226): each triggered
factor, or the single success marker when none triggered. -/
inductive FactorDisplay
  | factor : Factor → FactorDisplay
  | noMajorRiskFactorsIdentified
deriving DecidableEq, Repr

/-- Rendering of the risk-factor panel (lines 222-226): the list is
truthy iff nonempty, in which case each factor is shown; otherwise the
"no major risk factors identified" success marker is shown alone. -/
def displayedRiskFactors (months_since_claim total_claims age : ℕ)
    (region : Region) (claim_denial_rate avg_monthly_balance : ℕ) :
    List FactorDisplay :=
  if risk_factors months_since_claim total_claims age region
      claim_denial_rate avg_monthly_balance = [] then
    [FactorDisplay.noMajorRiskFactorsIdentified]
  else
    (risk_factors months_since_claim total_claims age region
      claim_denial_rate avg_monthly_balance).map FactorDisplay.factor

/-- Recommendation blocks (lines 230-252), abstracted to identity. -/
inductive Recommendation
  | URGENT_ACTION_REQUIRED
  | PROACTIVE_INTERVENTION
  | STANDARD_MONITORING
deriving DecidableEq, Repr

/-- Recommendation selector (lines 230-252). -/
def recommendation (dropout_percentage : ℚ) : Recommendation :=
  if dropout_percentage ≥ 70 then .URGENT_ACTION_REQUIRED
  else if dropout_percentage ≥ 50 then .PROACTIVE_INTERVENTION
  else .STANDARD_MONITORING

/-- Everything the result panel derives for one evaluation: probability,
outcome label, risk tier, risk factors and recommendation
(lines 146-252). -/
structure RiskAssessment where
  dropout_probability : ℚ
  outcome_label : Outcome
  risk_tier : RiskLevel
  factors : List Factor
  advice : Recommendation
deriving DecidableEq, Repr

/-- The form inputs collected in the left column (lines 51-71). -/
structure FormInputs where
  beneficiary_id : String
  age : ℕ
  gender : Gender
  region : Region
  months_since_claim : ℕ
  total_claims : ℕ
  claim_denial_rate : ℕ
  clinic_visits : ℕ
  distance_to_clinic : ℕ
  avg_monthly_balance : ℕ
  premium_amount : ℕ
deriving DecidableEq, Repr

/-- One complete evaluation as performed inside the truthy branch of the
button handler (lines 146-252): calculate_dropout_risk is called on the
nine scoring inputs (gender and beneficiary_id are not passed), then
dropout_percentage = dropout_prob * 100 drives the classifier, the
explainer and the recommendation selector. -/
def evaluate (f : FormInputs) : RiskAssessment :=
  let dropout_prob := calculate_dropout_risk f.months_since_claim
    f.total_claims f.age f.region f.claim_denial_rate f.clinic_visits
    f.distance_to_clinic f.avg_monthly_balance f.premium_amount
  let dropout_percentage := dropout_prob * 100
  ⟨dropout_prob,
    outcome dropout_percentage,
    risk_level dropout_percentage,
    risk_factors f.months_since_claim f.total_claims f.age f.region
      f.claim_denial_rate f.avg_monthly_balance,
    recommendation dropout_percentage⟩

/-- Result of one button press (lines 142-256): either a rendered
assessment or the please-enter-an-id prompt. -/
inductive InteractionResult
  | assessed : RiskAssessment → InteractionResult
  | promptForId
deriving DecidableEq, Repr

/-- Button handler body (lines 144-256): Python string truthiness makes
the guard pass exactly when beneficiary_id is nonempty; the truthy
branch performs one evaluation, the else branch shows the prompt. -/
def runPrediction (f : FormInputs) : InteractionResult :=
  if f.beneficiary_id ≠ "" then .assessed (evaluate f)
  else .promptForId

/-! Helper lemmas: every contribution block is nonnegative, and the
regional lookup never yields less than the Port Harcourt entry. -/

theorem monthsContribution_nonneg (m : ℕ) : 0 ≤ monthsContribution m := by
  unfold monthsContribution; split_ifs <;> norm_num

theorem claimsContribution_nonneg (c : ℕ) : 0 ≤ claimsContribution c := by
  unfold claimsContribution; split_ifs <;> norm_num

theorem ageContribution_nonneg (a : ℕ) : 0 ≤ ageContribution a := by
  unfold ageContribution; split_ifs <;> norm_num

theorem regional_risk_ge (r : Region) : 0.04 ≤ regional_risk r := by
  cases r <;> norm_num [regional_risk]

theorem denialContribution_nonneg (d : ℕ) : 0 ≤ denialContribution d := by
  unfold denialContribution; split_ifs <;> norm_num

theorem visitsContribution_nonneg (v : ℕ) : 0 ≤ visitsContribution v := by
  unfold visitsContribution; split_ifs <;> norm_num

theorem distanceContribution_nonneg (k : ℕ) : 0 ≤ distanceContribution k := by
  unfold distanceContribution; split_ifs <;> norm_num

theorem balanceContribution_nonneg (b : ℕ) : 0 ≤ balanceContribution b := by
  unfold balanceContribution; split_ifs <;> norm_num

theorem premiumContribution_nonneg (b p : ℕ) : 0 ≤ premiumContribution b p := by
  unfold premiumContribution; split_ifs <;> norm_num

theorem risk_score_floor (m c a : ℕ) (r : Region) (d v k b p : ℕ) :
    0.04 ≤ risk_score m c a r d v k b p := by
  have h1 := monthsContribution_nonneg m
  have h2 := claimsContribution_nonneg c
  have h3 := ageContribution_nonneg a
  have h4 := regional_risk_ge r
  have h5 := denialContribution_nonneg d
  have h6 := visitsContribution_nonneg v
  have h7 := distanceContribution_nonneg k
  have h8 := balanceContribution_nonneg b
  have h9 := premiumContribution_nonneg b p
  unfold risk_score
  linarith

theorem calculate_dropout_risk_floor (m c a : ℕ) (r : Region) (d v k b p : ℕ) :
    0.04 ≤ calculate_dropout_risk m c a r d v k b p := by
  unfold calculate_dropout_risk
  exact le_min (risk_score_floor m c a r d v k b p) (by norm_num)

/-- C1: the spec asserts that a balance of 500 contributes +0.15 (the
tighter bound taking precedence), 1500 contributes +0.10 and 3000
contributes 0.  The source checks avg_monthly_balance < 2000 first and
< 1000 only in an elif, so the < 1000 branch is unreachable dead code: a
balance of 500 contributes +0.10, not the +0.15 the dead branch was
written to add; the 1500 and 3000 cases agree with the spec.  This
theorem evaluates the balance block at the three inputs and shows the
0.15 branch can never fire. -/
theorem c1_balance_branch_code_eval :
    balanceContribution 500 = 0.10 ∧ balanceContribution 500 ≠ 0.15 ∧
    balanceContribution 1500 = 0.10 ∧ balanceContribution 3000 = 0 ∧
    ∀ b : ℕ, balanceContribution b ≠ 0.15 := by
  refine ⟨by norm_num [balanceContribution], by norm_num [balanceContribution],
    by norm_num [balanceContribution], by norm_num [balanceContribution], ?_⟩
  intro b
  unfold balanceContribution
  split_ifs with h1 h2
  · norm_num
  · omega
  · norm_num

/-- C2: for every profile whose nine fields lie in the declared domains,
calculate_dropout_risk returns a value between 0 and 0.95. -/
theorem c2_probability_bounded (m c a : ℕ) (r : Region) (d v k b p : ℕ)
    (hm : m ≤ 120) (hc : c ≤ 50) (ha1 : 18 ≤ a) (ha2 : a ≤ 80)
    (hd : d ≤ 100) (hv : v ≤ 50) (hk : k ≤ 200) (hb : b ≤ 100000)
    (hp1 : 100 ≤ p) (hp2 : p ≤ 10000) :
    0 ≤ calculate_dropout_risk m c a r d v k b p ∧
    calculate_dropout_risk m c a r d v k b p ≤ 0.95 := by
  constructor
  · have := calculate_dropout_risk_floor m c a r d v k b p
    linarith
  · exact min_le_right _ _

/-- C2 witness at the form defaults. -/
theorem c2_probability_bounded_witness :
    0 ≤ calculate_dropout_risk 6 2 35 .Lagos 10 3 15 5000 1500 ∧
    calculate_dropout_risk 6 2 35 .Lagos 10 3 15 5000 1500 ≤ 0.95 :=
  c2_probability_bounded 6 2 35 .Lagos 10 3 15 5000 1500
    (by norm_num) (by norm_num) (by norm_num) (by norm_num) (by norm_num)
    (by norm_num) (by norm_num) (by norm_num) (by norm_num) (by norm_num)

/-- C5 counterexample: the claim that some in-domain profile scores
exactly 0 is false, because the regional lookup adds at least 0.04 to
every score. -/
theorem c5_no_zero_profile :
    ¬ ∃ (m c a : ℕ) (r : Region) (d v k b p : ℕ),
      m ≤ 120 ∧ c ≤ 50 ∧ 18 ≤ a ∧ a ≤ 80 ∧ d ≤ 100 ∧ v ≤ 50 ∧
      k ≤ 200 ∧ b ≤ 100000 ∧ 100 ≤ p ∧ p ≤ 10000 ∧
      calculate_dropout_risk m c a r d v k b p = 0 := by
  rintro ⟨m, c, a, r, d, v, k, b, p, -, -, -, -, -, -, -, -, -, -, h0⟩
  have := calculate_dropout_risk_floor m c a r d v k b p
  rw [h0] at this
  norm_num at this

/-- C5 amended: the score has a floor of 0.04, not 0: every profile
scores at least 0.04 (the Port Harcourt regional entry), and the floor
is attained by an in-domain profile for which every conditional branch
misses (months=1, claims=2, age=35, region=Port Harcourt, denial=5,
visits=3, distance=10, balance=5000, premium=1500). -/
theorem c5_floor_is_regional_minimum :
    (∀ (m c a : ℕ) (r : Region) (d v k b p : ℕ),
      0.04 ≤ calculate_dropout_risk m c a r d v k b p) ∧
    calculate_dropout_risk 1 2 35 .PortHarcourt 5 3 10 5000 1500 = 0.04 := by
  constructor
  · exact fun m c a r d v k b p => calculate_dropout_risk_floor m c a r d v k b p
  · norm_num [calculate_dropout_risk, risk_score, monthsContribution,
      claimsContribution, ageContribution, regional_risk, denialContribution,
      visitsContribution, distanceContribution, balanceContribution,
      premiumContribution]

/-- C3: with dropoutPercentage = dropoutProbability * 100 for any score
the scorer returns, the outcome is WILL_DROPOUT iff the percentage is at
least 50, and the risk tier is HIGH iff it is at least 70, MEDIUM iff it
is in [50, 70), and LOW iff it is below 50. -/
theorem c3_classifier_thresholds (m c a : ℕ) (r : Region) (d v k b p : ℕ) :
    (outcome (calculate_dropout_risk m c a r d v k b p * 100) = .WILL_DROPOUT ↔
      calculate_dropout_risk m c a r d v k b p * 100 ≥ 50) ∧
    (risk_level (calculate_dropout_risk m c a r d v k b p * 100) = .HIGH_RISK ↔
      calculate_dropout_risk m c a r d v k b p * 100 ≥ 70) ∧
    (risk_level (calculate_dropout_risk m c a r d v k b p * 100) = .MEDIUM_RISK ↔
      (calculate_dropout_risk m c a r d v k b p * 100 ≥ 50 ∧
        calculate_dropout_risk m c a r d v k b p * 100 < 70)) ∧
    (risk_level (calculate_dropout_risk m c a r d v k b p * 100) = .LOW_RISK ↔
      calculate_dropout_risk m c a r d v k b p * 100 < 50) := by
  generalize calculate_dropout_risk m c a r d v k b p * 100 = q
  unfold outcome risk_level
  refine ⟨?_, ?_, ?_, ?_⟩ <;> split_ifs <;> simp_all <;> linarith

/-- C4: whenever every branch fires at its maximum (months at least 12,
more than 10 claims, age over 65, Lagos, denial rate over 25, fewer than
2 visits, distance over 50, balance under 1000, premium above 0.3 times
balance), the accumulated risk_score exceeds 0.95 and the returned
probability is clamped to exactly 0.95. -/
theorem c4_cap_at_maximum (m c a d v k b p : ℕ)
    (hm : m ≥ 12) (hc : c > 10) (ha : a > 65) (hd : d > 25) (hv : v < 2)
    (hk : k > 50) (hb : b < 1000) (hp : (p : ℚ) > (b : ℚ) * 0.3) :
    0.95 < risk_score m c a .Lagos d v k b p ∧
    calculate_dropout_risk m c a .Lagos d v k b p = 0.95 := by
  have e1 : monthsContribution m = 0.45 := by
    unfold monthsContribution; rw [if_pos hm]
  have e2 : claimsContribution c = 0.20 := by
    unfold claimsContribution; rw [if_neg (by omega), if_pos hc]
  have e3 : ageContribution a = 0.15 := by
    unfold ageContribution; rw [if_neg (by omega), if_pos ha]
  have e4 : regional_risk Region.Lagos = 0.18 := rfl
  have e5 : denialContribution d = 0.12 := by
    unfold denialContribution; rw [if_pos hd]
  have e6 : visitsContribution v = 0.10 := by
    unfold visitsContribution; rw [if_pos hv]
  have e7 : distanceContribution k = 0.08 := by
    unfold distanceContribution; rw [if_pos hk]
  have e8 : balanceContribution b = 0.10 := by
    unfold balanceContribution; rw [if_pos (show b < 2000 by omega)]
  have e9 : premiumContribution b p = 0.08 := by
    unfold premiumContribution; rw [if_pos hp]
  have hs : risk_score m c a .Lagos d v k b p = 1.46 := by
    unfold risk_score; rw [e1, e2, e3, e4, e5, e6, e7, e8, e9]; norm_num
  refine ⟨by rw [hs]; norm_num, ?_⟩
  unfold calculate_dropout_risk
  rw [hs]
  exact min_eq_right (by norm_num)

/-- C4 witness: months=12, claims=11, age=66, Lagos, denial=26,
visits=1, distance=51, balance=500, premium=200. -/
theorem c4_cap_at_maximum_witness :
    0.95 < risk_score 12 11 66 .Lagos 26 1 51 500 200 ∧
    calculate_dropout_risk 12 11 66 .Lagos 26 1 51 500 200 = 0.95 :=
  c4_cap_at_maximum 12 11 66 26 1 51 500 200 (by norm_num) (by norm_num)
    (by norm_num) (by norm_num) (by norm_num) (by norm_num) (by norm_num)
    (by norm_num)

theorem monthsContribution_mono {m m' : ℕ} (h : m ≤ m') :
    monthsContribution m ≤ monthsContribution m' := by
  unfold monthsContribution
  split_ifs <;> first | (exfalso; omega) | norm_num

/-- C6: holding all other fields fixed, increasing monthsSinceLastClaim
never decreases the returned probability; in particular the increases
across the tier boundaries 2, 3, 6, 12 never do. -/
theorem c6_months_monotone (c a : ℕ) (r : Region) (d v k b p : ℕ)
    (m m' : ℕ) (h : m ≤ m') :
    calculate_dropout_risk m c a r d v k b p ≤
      calculate_dropout_risk m' c a r d v k b p := by
  unfold calculate_dropout_risk
  refine min_le_min ?_ le_rfl
  unfold risk_score
  have := monthsContribution_mono h
  linarith

/-- C6 witness: stepping months from 2 to 12 at otherwise fixed inputs. -/
theorem c6_months_monotone_witness :
    calculate_dropout_risk 2 2 35 .Kano 10 3 15 5000 1500 ≤
      calculate_dropout_risk 12 2 35 .Kano 10 3 15 5000 1500 :=
  c6_months_monotone 2 35 .Kano 10 3 15 5000 1500 2 12 (by norm_num)

/-- C7: end-to-end example: months=12, claims=0, age=35, Lagos,
denial=10, visits=3, distance=15, balance=5000, premium=1500 gives
contributions 0.45+0.15+0+0.18+0+0+0+0+0 = 0.78, hence 78 percent,
WILL_DROPOUT, HIGH, and the factor list contains the months factor,
"no claims history" and "high-risk region". -/
theorem c7_example_one :
    risk_score 12 0 35 .Lagos 10 3 15 5000 1500
      = 0.45 + 0.15 + 0 + 0.18 + 0 + 0 + 0 + 0 + 0 ∧
    calculate_dropout_risk 12 0 35 .Lagos 10 3 15 5000 1500 = 0.78 ∧
    calculate_dropout_risk 12 0 35 .Lagos 10 3 15 5000 1500 * 100 = 78 ∧
    outcome (calculate_dropout_risk 12 0 35 .Lagos 10 3 15 5000 1500 * 100)
      = .WILL_DROPOUT ∧
    risk_level (calculate_dropout_risk 12 0 35 .Lagos 10 3 15 5000 1500 * 100)
      = .HIGH_RISK ∧
    Factor.monthsWithoutClaims ∈ risk_factors 12 0 35 .Lagos 10 5000 ∧
    Factor.noClaimsHistory ∈ risk_factors 12 0 35 .Lagos 10 5000 ∧
    Factor.highRiskRegion ∈ risk_factors 12 0 35 .Lagos 10 5000 := by
  have hs : calculate_dropout_risk 12 0 35 .Lagos 10 3 15 5000 1500 = 0.78 := by
    norm_num [calculate_dropout_risk, risk_score, monthsContribution,
      claimsContribution, ageContribution, regional_risk, denialContribution,
      visitsContribution, distanceContribution, balanceContribution,
      premiumContribution]
  have hf : risk_factors 12 0 35 .Lagos 10 5000
      = [.monthsWithoutClaims, .noClaimsHistory, .highRiskRegion] := by
    norm_num [risk_factors]
  refine ⟨?_, hs, ?_, ?_, ?_, ?_, ?_, ?_⟩
  · norm_num [risk_score, monthsContribution, claimsContribution,
      ageContribution, regional_risk, denialContribution, visitsContribution,
      distanceContribution, balanceContribution, premiumContribution]
  · rw [hs]; norm_num
  · rw [hs]; norm_num [outcome]
  · rw [hs]; norm_num [risk_level]
  · rw [hf]; simp
  · rw [hf]; simp
  · rw [hf]; simp

theorem sublist_ite_single {α : Type} (p : Prop) [Decidable p] (x : α) :
    List.Sublist (if p then [x] else []) [x] := by
  split_ifs
  · exact List.Sublist.refl [x]
  · exact List.nil_sublist [x]

theorem claims_branch_sublist (c : ℕ) :
    List.Sublist
      (if c = 0 then [Factor.noClaimsHistory]
        else if c > 5 then [Factor.highClaimFrequency] else [])
      [Factor.noClaimsHistory, Factor.highClaimFrequency] := by
  split_ifs
  · exact List.Sublist.cons₂ _ (List.nil_sublist _)
  · exact List.Sublist.cons _ (List.Sublist.refl _)
  · exact List.nil_sublist _

theorem risk_factors_sublist (m c a : ℕ) (r : Region) (d b : ℕ) :
    List.Sublist (risk_factors m c a r d b)
      [Factor.monthsWithoutClaims, Factor.noClaimsHistory,
        Factor.highClaimFrequency, Factor.ageRisk, Factor.highRiskRegion,
        Factor.highDenialRate, Factor.lowBalance] := by
  unfold risk_factors
  show List.Sublist _
    ((((([Factor.monthsWithoutClaims]
      ++ [Factor.noClaimsHistory, Factor.highClaimFrequency])
      ++ [Factor.ageRisk])
      ++ [Factor.highRiskRegion])
      ++ [Factor.highDenialRate])
      ++ [Factor.lowBalance])
  exact List.Sublist.append
    (List.Sublist.append
      (List.Sublist.append
        (List.Sublist.append
          (List.Sublist.append (sublist_ite_single _ _)
            (claims_branch_sublist c))
          (sublist_ite_single _ _))
        (sublist_ite_single _ _))
      (sublist_ite_single _ _))
    (sublist_ite_single _ _)

theorem mem_ite_single_iff {α : Type} (p : Prop) [Decidable p] (x y : α) :
    (y ∈ if p then [x] else []) ↔ (p ∧ y = x) := by
  split_ifs with h <;> simp [h]

theorem mem_claims_branch_iff (c : ℕ) (y : Factor) :
    (y ∈ if c = 0 then [Factor.noClaimsHistory]
      else if c > 5 then [Factor.highClaimFrequency] else []) ↔
    ((c = 0 ∧ y = Factor.noClaimsHistory) ∨
      (c ≠ 0 ∧ c > 5 ∧ y = Factor.highClaimFrequency)) := by
  split_ifs with h1 h2 <;> simp_all

theorem displayedRiskFactors_marker_iff (m c a : ℕ) (r : Region) (d b : ℕ) :
    displayedRiskFactors m c a r d b
      = [FactorDisplay.noMajorRiskFactorsIdentified] ↔
    risk_factors m c a r d b = [] := by
  unfold displayedRiskFactors
  split_ifs with h
  · simp [h]
  · simp only [h, iff_false]
    rcases hfs : risk_factors m c a r d b with - | ⟨x, xs⟩
    · exact absurd hfs h
    · simp

/-- C8: the explainer emits, in evaluation order, exactly the factors
whose looser thresholds trigger: the months factor iff months is at
least 6, "no claims history" iff the claim count is 0, otherwise "high
claim frequency" iff it exceeds 5, the age factor iff age is below 25 or
above 55, "high-risk region" iff the region is Lagos, Enugu or Kaduna,
"high denial rate" iff the denial rate exceeds 15, "low balance" iff the
balance is below 2000; the emitted list is an ordered sublist of the
seven factors in evaluation order, and the panel shows the single
"no major risk factors identified" marker exactly when nothing
triggered. -/
theorem c8_explainer_characterization (m c a : ℕ) (r : Region) (d b : ℕ) :
    (Factor.monthsWithoutClaims ∈ risk_factors m c a r d b ↔ m ≥ 6) ∧
    (Factor.noClaimsHistory ∈ risk_factors m c a r d b ↔ c = 0) ∧
    (Factor.highClaimFrequency ∈ risk_factors m c a r d b ↔ (c ≠ 0 ∧ c > 5)) ∧
    (Factor.ageRisk ∈ risk_factors m c a r d b ↔ (a < 25 ∨ a > 55)) ∧
    (Factor.highRiskRegion ∈ risk_factors m c a r d b ↔
      (r = .Lagos ∨ r = .Enugu ∨ r = .Kaduna)) ∧
    (Factor.highDenialRate ∈ risk_factors m c a r d b ↔ d > 15) ∧
    (Factor.lowBalance ∈ risk_factors m c a r d b ↔ b < 2000) ∧
    List.Sublist (risk_factors m c a r d b)
      [Factor.monthsWithoutClaims, Factor.noClaimsHistory,
        Factor.highClaimFrequency, Factor.ageRisk, Factor.highRiskRegion,
        Factor.highDenialRate, Factor.lowBalance] ∧
    (displayedRiskFactors m c a r d b
        = [FactorDisplay.noMajorRiskFactorsIdentified] ↔
      risk_factors m c a r d b = []) := by
  refine ⟨?_, ?_, ?_, ?_, ?_, ?_, ?_, risk_factors_sublist m c a r d b,
    displayedRiskFactors_marker_iff m c a r d b⟩ <;>
  simp [risk_factors, List.mem_append, mem_ite_single_iff, mem_claims_branch_iff]

/-- C9: the button handler evaluates nothing when the beneficiary id is
empty (Python falsy) and shows the prompt instead; when the id is
nonempty it performs exactly one complete evaluation and renders it. -/
theorem c9_beneficiary_id_guard (f : FormInputs) :
    (f.beneficiary_id = "" → runPrediction f = .promptForId) ∧
    (f.beneficiary_id ≠ "" → runPrediction f = .assessed (evaluate f)) := by
  constructor
  · intro h; simp [runPrediction, h]
  · intro h; simp [runPrediction, h]

/-- C9 witness: an empty id yields the prompt; the id BEN001234 yields
the rendered assessment. -/
theorem c9_beneficiary_id_guard_witness :
    runPrediction ⟨"", 35, .Male, .Lagos, 6, 2, 10, 3, 15, 5000, 1500⟩
      = .promptForId ∧
    runPrediction ⟨"BEN001234", 35, .Male, .Lagos, 6, 2, 10, 3, 15, 5000, 1500⟩
      = .assessed
        (evaluate ⟨"BEN001234", 35, .Male, .Lagos, 6, 2, 10, 3, 15, 5000, 1500⟩) :=
  ⟨(c9_beneficiary_id_guard ⟨"", 35, .Male, .Lagos, 6, 2, 10, 3, 15, 5000, 1500⟩).1
      rfl,
   (c9_beneficiary_id_guard
      ⟨"BEN001234", 35, .Male, .Lagos, 6, 2, 10, 3, 15, 5000, 1500⟩).2
      (by simp)⟩

/-- C10: gender is collected by the form but never passed to the scorer:
two interactions whose inputs agree on everything except gender produce
the same evaluation and the same rendered interaction result. -/
theorem c10_gender_noninterference (f g : FormInputs)
    (h1 : f.beneficiary_id = g.beneficiary_id) (h2 : f.age = g.age)
    (h3 : f.region = g.region)
    (h4 : f.months_since_claim = g.months_since_claim)
    (h5 : f.total_claims = g.total_claims)
    (h6 : f.claim_denial_rate = g.claim_denial_rate)
    (h7 : f.clinic_visits = g.clinic_visits)
    (h8 : f.distance_to_clinic = g.distance_to_clinic)
    (h9 : f.avg_monthly_balance = g.avg_monthly_balance)
    (h10 : f.premium_amount = g.premium_amount) :
    evaluate f = evaluate g ∧ runPrediction f = runPrediction g := by
  cases f
  cases g
  simp_all only []
  subst h1 h2 h3 h4 h5 h6 h7 h8 h9 h10
  exact ⟨rfl, rfl⟩

/-- C10 witness: two forms identical except for gender give identical
results. -/
theorem c10_gender_noninterference_witness :
    evaluate ⟨"BEN001234", 35, .Male, .Kano, 6, 2, 10, 3, 15, 5000, 1500⟩
      = evaluate ⟨"BEN001234", 35, .Female, .Kano, 6, 2, 10, 3, 15, 5000, 1500⟩ ∧
    runPrediction ⟨"BEN001234", 35, .Male, .Kano, 6, 2, 10, 3, 15, 5000, 1500⟩
      = runPrediction
        ⟨"BEN001234", 35, .Female, .Kano, 6, 2, 10, 3, 15, 5000, 1500⟩ :=
  c10_gender_noninterference
    ⟨"BEN001234", 35, .Male, .Kano, 6, 2, 10, 3, 15, 5000, 1500⟩
    ⟨"BEN001234", 35, .Female, .Kano, 6, 2, 10, 3, 15, 5000, 1500⟩
    rfl rfl rfl rfl rfl rfl rfl rfl rfl rfl

end DropoutPredictor
